import Mathlib

/-!
Verification of the transport core of `mediasoup-handler`
(`src/Transport.ts`, `src/SendTransport.ts`, `src/RecvTransport.ts`)
against its natural-language specification.

The TypeScript classes are shallowly embedded: each method becomes a pure
Lean function over an explicit transport state, external collaborators
(the engine adapter / handler, `utils.clone`, the `ortc` helpers and the
`awaitqueue` dependency) are modelled by oracle parameters or, where their
code is not part of the sources, by definitions written from the spec and
marked as such.
-/

/-! ## Basic enumerations (from `src/Transport.ts`, `src/RtpParameters.ts`) -/

/-- Media kind of a track or stream: `'audio' | 'video'`. -/
inductive MediaKind : Type
  | audio
  | video
deriving DecidableEq, Repr

/-- Transport direction: `'send' | 'recv'`. -/
inductive Direction : Type
  | send
  | recv
deriving DecidableEq, Repr

/-- `IceGatheringState` from `src/Transport.ts`. -/
inductive IceGatheringState : Type
  | new
  | gathering
  | complete
deriving DecidableEq, Repr

/-- `ConnectionState` from `src/Transport.ts`. -/
inductive ConnectionState : Type
  | new
  | connecting
  | connected
  | failed
  | disconnected
  | closed
deriving DecidableEq, Repr

/-- The error classes thrown by the transport code (`src/errors.ts` names
them; the spec calls them Closed / BadArgument / Unsupported).
`invalidState` is `InvalidStateError`, `typeError` is `TypeError`,
`unsupported` is `UnsupportedError`. -/
inductive TransportError : Type
  | invalidState (msg : String)
  | typeError (msg : String)
  | unsupported (msg : String)
deriving DecidableEq, Repr

/-! ## Transport state and adapter-event handling (`src/Transport.ts`) -/

/-- The mutable fields of a `Transport` instance that the verified claims
depend on: `_closed`, `_direction`, `_iceGatheringState`,
`_connectionState`, whether the `AwaitQueue` has been stopped, the
per-kind producibility flags, the SCTP max message size
(`null`/`0` is unusable, per the JS truthiness test in the code), and the
receive-side `_probatorConsumerCreated` marker. -/
structure TransportState : Type where
  closed : Bool
  direction : Direction
  iceGatheringState : IceGatheringState
  connectionState : ConnectionState
  queueStopped : Bool
  canProduceAudio : Bool
  canProduceVideo : Bool
  maxSctpMessageSize : Option Nat
  probatorConsumerCreated : Bool
deriving DecidableEq, Repr

/-- `_canProduceByKind[track.kind]` lookup. -/
def TransportState.canProduce (st : TransportState) : MediaKind → Bool
  | MediaKind.audio => st.canProduceAudio
  | MediaKind.video => st.canProduceVideo

/-- A freshly constructed transport: `_closed = false`,
`_iceGatheringState = 'new'`, `_connectionState = 'new'`, queue running,
probator marker unset. -/
def initialState (dir : Direction) (maxSctp : Option Nat) : TransportState :=
  { closed := false
    direction := dir
    iceGatheringState := IceGatheringState.new
    connectionState := ConnectionState.new
    queueStopped := false
    canProduceAudio := true
    canProduceVideo := true
    maxSctpMessageSize := maxSctp
    probatorConsumerCreated := false }

/-- Notifications observable by the application: the
`icegatheringstatechange` and `connectionstatechange` events emitted via
`safeEmit`, and the observer `close` event emitted by `close()`. -/
inductive Emission : Type
  | icegatheringstatechange (s : IceGatheringState)
  | connectionstatechange (s : ConnectionState)
  | observerClose
deriving DecidableEq, Repr

/-- The `@icegatheringstatechange` handler installed by `handleHandler()`
(`src/Transport.ts` lines 441-456): if the new value equals the current one
it returns at once; otherwise it stores the new value and emits the
notification only when the transport is not closed. -/
def onIceGatheringStateChange (st : TransportState) (s : IceGatheringState) :
    TransportState × List Emission :=
  if s = st.iceGatheringState then (st, [])
  else
    let st1 := { st with iceGatheringState := s }
    if st.closed then (st1, []) else (st1, [Emission.icegatheringstatechange s])

/-- The `@connectionstatechange` handler installed by `handleHandler()`
(`src/Transport.ts` lines 458-470): if the new value equals the current one
it returns at once; otherwise it stores the new value and emits the
notification only when the transport is not closed. -/
def onConnectionStateChange (st : TransportState) (s : ConnectionState) :
    TransportState × List Emission :=
  if s = st.connectionState then (st, [])
  else
    let st1 := { st with connectionState := s }
    if st.closed then (st1, []) else (st1, [Emission.connectionstatechange s])

/-- Result of a call to `Transport.close()`: the state after the call, the
notifications emitted, and whether an exception escaped to the caller. -/
structure CloseResult : Type where
  state : TransportState
  emissions : List Emission
  raised : Bool
deriving DecidableEq, Repr

/-- `Transport.close()` (`src/Transport.ts` lines 342-363), with the
adapter's own `close()` modelled as an oracle that either returns or
throws (`handlerCloseOk`). The method returns immediately when already
closed; otherwise it sets `_closed`, stops the `AwaitQueue`, calls
`this._handler.close()` — with no surrounding `try`/`catch`, so a throw
escapes before `_connectionState` is forced to `'closed'` and before the
observer `close` event — and otherwise forces the connection state and
emits the single observer notification. -/
def Transport.close (handlerCloseOk : Bool) (st : TransportState) : CloseResult :=
  if st.closed then { state := st, emissions := [], raised := false }
  else
    let st1 := { st with closed := true, queueStopped := true }
    if handlerCloseOk then
      { state := { st1 with connectionState := ConnectionState.closed }
        emissions := [Emission.observerClose]
        raised := false }
    else
      { state := st1, emissions := [], raised := true }

/-- One externally triggered event at the transport-core level: an
adapter-raised gathering-state change, an adapter-raised connection-state
change, or a local `close()` call (with a non-throwing adapter `close`). -/
inductive TEvent : Type
  | gatherEvent (s : IceGatheringState)
  | connEvent (s : ConnectionState)
  | closeCall
deriving DecidableEq, Repr

/-- Step function over transport-core events. -/
def Transport.step (st : TransportState) : TEvent → TransportState × List Emission
  | TEvent.gatherEvent s => onIceGatheringStateChange st s
  | TEvent.connEvent s => onConnectionStateChange st s
  | TEvent.closeCall =>
      let r := Transport.close true st
      (r.state, r.emissions)

/-! ## Theorems for claims C3, C4, C6 -/

/-- C3, counterexample: the claim says that after `close()` the observable
connection state can never move away from `'closed'`; but delivering an
adapter `@connectionstatechange('failed')` event to a freshly closed
transport overwrites `_connectionState` with `'failed'`, because the
handler only gates the notification, not the assignment, on the closed
flag. -/
theorem c3_post_close_event_moves_state :
    (onConnectionStateChange
        (Transport.close true (initialState Direction.recv none)).state
        ConnectionState.failed).1.connectionState = ConnectionState.failed ∧
    (Transport.close true (initialState Direction.recv none)).state.connectionState
      = ConnectionState.closed := by
  decide

/-- C3, amended: once the transport is closed, a delivered
`@connectionstatechange` event emits no notification and leaves the
transport closed, but it overwrites the stored connection state with the
event's value — so the stored state can move away from `'closed'`; only
the notification stream is silenced. -/
theorem c3_closed_silent_but_overwrites (st : TransportState) (s : ConnectionState)
    (h : st.closed = true) :
    (onConnectionStateChange st s).2 = [] ∧
    (onConnectionStateChange st s).1.closed = true ∧
    (onConnectionStateChange st s).1.connectionState = s := by
  unfold onConnectionStateChange
  by_cases hs : s = st.connectionState
  · simp [hs, h]
  · simp [hs, h]

/-- C3, witness for the amended theorem at a concrete closed state. -/
theorem c3_closed_silent_but_overwrites_witness :
    (onConnectionStateChange
        (Transport.close true (initialState Direction.recv none)).state
        ConnectionState.failed).2 = [] ∧
    (onConnectionStateChange
        (Transport.close true (initialState Direction.recv none)).state
        ConnectionState.failed).1.closed = true ∧
    (onConnectionStateChange
        (Transport.close true (initialState Direction.recv none)).state
        ConnectionState.failed).1.connectionState = ConnectionState.failed :=
  c3_closed_silent_but_overwrites
    (Transport.close true (initialState Direction.recv none)).state
    ConnectionState.failed (by decide)

/-- C4, counterexample: the claim says a connection-state change
notification is emitted whenever the newly assigned value differs from the
preceding one; but `close()` on a fresh transport assigns
`_connectionState = 'closed'` (differing from `'new'`) while emitting no
`connectionstatechange` notification — only the observer `close` event. -/
theorem c4_close_assigns_without_notification :
    (Transport.step (initialState Direction.send none) TEvent.closeCall).1.connectionState
      = ConnectionState.closed ∧
    (initialState Direction.send none).connectionState ≠ ConnectionState.closed ∧
    (Transport.step (initialState Direction.send none) TEvent.closeCall).2
      = [Emission.observerClose] := by
  decide

/-- C4, amended: an adapter-raised gathering- or connection-state event
emits the corresponding notification iff the new value differs from the
current value AND the transport is not closed; an identical value is always
a silent no-op; and a local `close()` call never emits a state-change
notification (it emits only the observer `close` event, and only on the
first call), even though it assigns `'closed'` to the connection state. -/
theorem c4_dedup_emission_characterisation (st : TransportState)
    (s : IceGatheringState) (c : ConnectionState) :
    ((Transport.step st (TEvent.gatherEvent s)).2 =
      if s ≠ st.iceGatheringState ∧ st.closed = false then
        [Emission.icegatheringstatechange s] else []) ∧
    ((Transport.step st (TEvent.connEvent c)).2 =
      if c ≠ st.connectionState ∧ st.closed = false then
        [Emission.connectionstatechange c] else []) ∧
    ((Transport.step st TEvent.closeCall).2 =
      if st.closed then [] else [Emission.observerClose]) := by
  refine ⟨?_, ?_, ?_⟩
  · simp only [Transport.step, onIceGatheringStateChange]
    by_cases hs : s = st.iceGatheringState
    · simp [hs]
    · cases h : st.closed <;> simp [hs, h]
  · simp only [Transport.step, onConnectionStateChange]
    by_cases hc : c = st.connectionState
    · simp [hc]
    · cases h : st.closed <;> simp [hc, h]
  · simp only [Transport.step, Transport.close]
    cases h : st.closed <;> simp [h]

/-- C6, counterexample: the claim says any failure raised by the adapter
during shutdown is swallowed and `close()` never fails; but
`this._handler.close()` is called with no surrounding `try`/`catch`, so an
adapter throw escapes the first `close()` call. -/
theorem c6_adapter_close_failure_propagates :
    (Transport.close false (initialState Direction.send none)).raised = true := by
  decide

/-- C6, amended: `close()` is idempotent — a call on an already-closed
transport is a complete no-op, and a second call after any first call is a
no-op; the first call synchronously sets the closed flag, stops the
command queue and asks the adapter to release resources; when the
adapter's `close()` returns normally the connection state is forced to
`'closed'` and exactly one shutdown notification is raised; but when the
adapter's `close()` throws, the failure propagates out of `close()` (it is
not swallowed) and the connection-state forcing and the shutdown
notification are skipped, while the closed flag and queue stop remain in
effect. -/
theorem c6_close_idempotent_first_call_steps (st : TransportState) (ok : Bool) :
    (st.closed = true → Transport.close ok st =
      { state := st, emissions := [], raised := false }) ∧
    (st.closed = false →
      (Transport.close true st).state =
        { st with closed := true, queueStopped := true,
                  connectionState := ConnectionState.closed } ∧
      (Transport.close true st).emissions = [Emission.observerClose] ∧
      (Transport.close true st).raised = false ∧
      (Transport.close false st).raised = true ∧
      (Transport.close false st).state.closed = true ∧
      (Transport.close false st).state.queueStopped = true ∧
      (Transport.close false st).state.connectionState = st.connectionState ∧
      (Transport.close false st).emissions = []) ∧
    (Transport.close ok (Transport.close ok st).state =
      { state := (Transport.close ok st).state, emissions := [], raised := false }) := by
  refine ⟨?_, ?_, ?_⟩
  · intro h
    simp [Transport.close, h]
  · intro h
    simp [Transport.close, h]
  · cases h : st.closed <;> cases ok <;>
      simp [Transport.close, h]

/-- C6, witness for the amended theorem at a fresh send transport. -/
theorem c6_close_idempotent_witness :
    (Transport.close true (initialState Direction.send none)).emissions
      = [Emission.observerClose] ∧
    (Transport.close false (initialState Direction.send none)).raised = true :=
  ⟨((c6_close_idempotent_first_call_steps (initialState Direction.send none) true).2.1
      (by decide)).2.1,
   ((c6_close_idempotent_first_call_steps (initialState Direction.send none) true).2.1
      (by decide)).2.2.2.1⟩

/-! ## Command queue serializer (`_awaitQueue`, `src/Transport.ts` line 182)

The queue implementation lives in the external `awaitqueue` dependency;
only its instantiation and use are in the sources, so the queue itself is
modelled from the spec. -/

/-- An event observed by the engine adapter / the tasks' callers:
a task begins executing, a task settles (success or failure), or a
not-yet-started task is rejected with a stopped failure. Tasks are
identified by their submission index. -/
inductive QEvent : Type
  | enter (i : Nat)
  | settle (i : Nat) (ok : Bool)
  | rejectedStopped (i : Nat)
deriving DecidableEq, Repr

/-- Modelled from the spec: the `awaitqueue` dependency instantiated as
`_awaitQueue` (its implementation is not among the sources). Tasks are
given by their eventual outcomes in submission order, `i` is the index of
the first task of the list, and `k` is how many more tasks settle before
`stop()` takes effect; each remaining task is rejected with a stopped
failure without ever starting. -/
def runQueueAux : List Bool → Nat → Nat → List QEvent
  | [], _, _ => []
  | _ :: rest, i, 0 => QEvent.rejectedStopped i :: runQueueAux rest (i + 1) 0
  | o :: rest, i, Nat.succ k =>
      QEvent.enter i :: QEvent.settle i o :: runQueueAux rest (i + 1) k

/-- Modelled from the spec: the trace of the command queue on a sequence
of submitted tasks, where `stopAfter = some k` means `stop()` is called
once `k` tasks have settled (`none` means `stop()` is never called). A
task executing when `stop()` arrives is not interrupted, so a mid-task
stop is represented by counting that task as settled. -/
def runQueue (outcomes : List Bool) (stopAfter : Option Nat) : List QEvent :=
  runQueueAux outcomes 0 (stopAfter.getD outcomes.length)

/-- Indices of tasks that began executing, in trace order. -/
def entersOf : List QEvent → List Nat
  | [] => []
  | QEvent.enter i :: t => i :: entersOf t
  | _ :: t => entersOf t

/-- Settlements (task index, outcome) in trace order. -/
def settlesOf : List QEvent → List (Nat × Bool)
  | [] => []
  | QEvent.settle i o :: t => (i, o) :: settlesOf t
  | _ :: t => settlesOf t

/-- Indices of tasks rejected with the stopped failure, in trace order. -/
def rejectsOf : List QEvent → List Nat
  | [] => []
  | QEvent.rejectedStopped i :: t => i :: rejectsOf t
  | _ :: t => rejectsOf t

/-- Serial-execution checker: scanning the trace with the currently
executing task (if any), a task may begin only when no task is executing,
only the executing task may settle, no task is rejected while another is
still marked executing, and the trace ends with no task in flight. A trace
accepted by this checker has at most one task in flight at any time, and
every task begins only after the previously started one has settled. -/
def checkSerial : Option Nat → List QEvent → Bool
  | none, [] => true
  | some _, [] => false
  | none, QEvent.enter i :: t => checkSerial (some i) t
  | none, QEvent.rejectedStopped _ :: t => checkSerial none t
  | none, QEvent.settle _ _ :: _ => false
  | some i, QEvent.settle j _ :: t => i = j && checkSerial none t
  | some _, QEvent.enter _ :: _ => false
  | some _, QEvent.rejectedStopped _ :: _ => false

theorem runQueueAux_checkSerial (o : List Bool) :
    ∀ i k, checkSerial none (runQueueAux o i k) = true := by
  induction o with
  | nil => intro i k; rfl
  | cons a rest ih =>
      intro i k
      cases k with
      | zero => simpa [runQueueAux, checkSerial] using ih (i + 1) 0
      | succ k => simpa [runQueueAux, checkSerial] using ih (i + 1) k

theorem runQueueAux_enters (o : List Bool) :
    ∀ i k, entersOf (runQueueAux o i k) = List.range' i (min k o.length) := by
  induction o with
  | nil => intro i k; simp [runQueueAux, entersOf]
  | cons a rest ih =>
      intro i k
      cases k with
      | zero => simpa [runQueueAux, entersOf] using ih (i + 1) 0
      | succ k =>
          have hmin : min (k + 1) (rest.length + 1) = min k rest.length + 1 := by
            omega
          simp [runQueueAux, entersOf, ih (i + 1) k, hmin, List.range'_succ]

theorem runQueueAux_settles (o : List Bool) :
    ∀ i k, settlesOf (runQueueAux o i k) =
      (List.range' i (min k o.length)).zip (o.take k) := by
  induction o with
  | nil => intro i k; simp [runQueueAux, settlesOf]
  | cons a rest ih =>
      intro i k
      cases k with
      | zero => simpa [runQueueAux, settlesOf] using ih (i + 1) 0
      | succ k =>
          have hmin : min (k + 1) (rest.length + 1) = min k rest.length + 1 := by
            omega
          simp [runQueueAux, settlesOf, ih (i + 1) k, hmin, List.range'_succ]

theorem runQueueAux_rejects (o : List Bool) :
    ∀ i k, rejectsOf (runQueueAux o i k) =
      List.range' (i + min k o.length) (o.length - k) := by
  induction o with
  | nil => intro i k; simp [runQueueAux, rejectsOf]
  | cons a rest ih =>
      intro i k
      cases k with
      | zero =>
          have : rejectsOf (runQueueAux rest (i + 1) 0) =
              List.range' (i + 1) rest.length := by
            simpa using ih (i + 1) 0
          simp [runQueueAux, rejectsOf, this, List.range'_succ]
      | succ k =>
          have hmin : min (k + 1) (rest.length + 1) = min k rest.length + 1 := by
            omega
          have := ih (i + 1) k
          simp only [runQueueAux, rejectsOf, this, hmin, List.length_cons]
          have harith : i + 1 + min k rest.length = i + (min k rest.length + 1) := by
            omega
          rw [harith]
          congr 1
          omega

/-- C1: on the spec-modelled command queue, every run is serial — at most
one task in flight, each task beginning only after the previous one has
settled (`checkSerial`); the tasks that begin are exactly an initial
segment of the submissions, observed in exact submission order; each
started task settles normally with its own outcome (success or failure),
even the one executing when `stop()` arrives; and after `stop()` every
task not yet started is rejected with the stopped failure, in order, and
never begins. -/
theorem c1_queue_serial_fifo_stop (outcomes : List Bool) (stopAfter : Option Nat) :
    checkSerial none (runQueue outcomes stopAfter) = true ∧
    entersOf (runQueue outcomes stopAfter) =
      List.range' 0 (min (stopAfter.getD outcomes.length) outcomes.length) ∧
    settlesOf (runQueue outcomes stopAfter) =
      (List.range' 0 (min (stopAfter.getD outcomes.length) outcomes.length)).zip
        (outcomes.take (stopAfter.getD outcomes.length)) ∧
    rejectsOf (runQueue outcomes stopAfter) =
      List.range' (min (stopAfter.getD outcomes.length) outcomes.length)
        (outcomes.length - stopAfter.getD outcomes.length) := by
  refine ⟨runQueueAux_checkSerial outcomes 0 _,
    runQueueAux_enters outcomes 0 _, runQueueAux_settles outcomes 0 _, ?_⟩
  simpa using runQueueAux_rejects outcomes 0 (stopAfter.getD outcomes.length)

/-! ## Receiving specialization (`RecvTransport`) -/

/-- The caller-supplied `ConsumerOptions` fields that drive the pre-flight
checks of `consume()`: `id` and `producerId` (present iff of type string)
and `kind` (`some` iff it is the literal string `audio` or `video`). -/
structure ConsumerOptions : Type where
  id : Option String
  producerId : Option String
  kind : Option MediaKind
deriving DecidableEq, Repr

/-- Outcome of the synchronous phase of an operation: either an error was
thrown before anything was enqueued, or a task was pushed onto the
command queue. -/
inductive SyncOutcome : Type
  | threw (e : TransportError)
  | enqueued
deriving DecidableEq, Repr

/-- Synchronous phase of `RecvTransport.consume()` (lines 44-89 of the
class): closed check, direction check, `id` / `producerId` / `kind`
argument checks, then the `ortc.canReceive` capability gate (an external
pure function, supplied as the oracle `canRecv`); only when all pass is
the task pushed onto `_awaitQueue`. -/
def consumeSync (st : TransportState) (opts : ConsumerOptions) (canRecv : Bool) :
    SyncOutcome :=
  if st.closed then SyncOutcome.threw (TransportError.invalidState "closed")
  else if st.direction ≠ Direction.recv then
    SyncOutcome.threw (TransportError.unsupported "not a receiving Transport")
  else if opts.id = none then SyncOutcome.threw (TransportError.typeError "missing id")
  else if opts.producerId = none then
    SyncOutcome.threw (TransportError.typeError "missing producerId")
  else if opts.kind = none then
    SyncOutcome.threw (TransportError.typeError "invalid kind")
  else if !canRecv then
    SyncOutcome.threw (TransportError.unsupported "cannot consume this Producer")
  else SyncOutcome.enqueued

/-- A call made to the engine adapter by the enqueued `consume` task:
`this._handler.receive(...)` with a track id, a kind and the outcome the
adapter returns for it. -/
inductive AdapterCall : Type
  | receive (trackId : String) (kind : MediaKind) (ok : Bool)
deriving DecidableEq, Repr

/-- Whether an adapter call targets the reserved synthetic probator id. -/
def AdapterCall.isProbe : AdapterCall → Bool
  | AdapterCall.receive tid _ _ => tid == "probator"

/-- Whether the adapter reported success for this call. -/
def AdapterCall.succeeded : AdapterCall → Bool
  | AdapterCall.receive _ _ ok => ok

/-- Result of the enqueued `consume` task: the transport state after the
task, the adapter calls it issued, and whether the caller's own consume
result was a success. -/
structure ConsumeTaskResult : Type where
  state : TransportState
  calls : List AdapterCall
  callerOk : Bool
deriving DecidableEq, Repr

/-- The enqueued task of `RecvTransport.consume()` (lines 89-143 of the
class): it asks the adapter to receive the caller's stream (`mainOk` is
the adapter's answer); if that throws, the task fails. Otherwise, when the
probator consumer has not been created yet and the kind is video, it
derives probator parameters and asks the adapter for one extra receive
stream under the reserved `probator` track id (`probeOk` is the adapter's
answer); on success it sets `_probatorConsumerCreated`, on failure it only
logs; either way it returns the caller's own result. -/
def consumeTask (st : TransportState) (trackId : String) (kind : MediaKind)
    (mainOk probeOk : Bool) : ConsumeTaskResult :=
  if !mainOk then
    { state := st, calls := [AdapterCall.receive trackId kind false], callerOk := false }
  else if !st.probatorConsumerCreated && kind == MediaKind.video then
    if probeOk then
      { state := { st with probatorConsumerCreated := true }
        calls := [AdapterCall.receive trackId kind true,
                  AdapterCall.receive "probator" MediaKind.video true]
        callerOk := true }
    else
      { state := st
        calls := [AdapterCall.receive trackId kind true,
                  AdapterCall.receive "probator" MediaKind.video false]
        callerOk := true }
  else
    { state := st, calls := [AdapterCall.receive trackId kind true], callerOk := true }

/-- Runs a sequence of enqueued `consume` tasks (track id, kind, adapter
answer for the main stream, adapter answer for the probe) on a receive
transport, threading the state and collecting every adapter call. -/
def runConsumes (st : TransportState) :
    List (String × MediaKind × Bool × Bool) → TransportState × List AdapterCall
  | [] => (st, [])
  | (tid, kind, mo, po) :: rest =>
      let r := consumeTask st tid kind mo po
      let rec' := runConsumes r.state rest
      (rec'.1, r.calls ++ rec'.2)

/-- Number of probe-stream creation attempts in a call list. -/
def probeAttempts (calls : List AdapterCall) : Nat :=
  (calls.filter AdapterCall.isProbe).length

/-- Number of successful probe-stream creations in a call list. -/
def probeSuccesses (calls : List AdapterCall) : Nat :=
  (calls.filter (fun c => c.isProbe && c.succeeded)).length

/-! ## Theorems for claims C7 and C2 -/

/-- C7: `consume()` fails synchronously — nothing enqueued, adapter never
invoked — with Closed (`InvalidStateError`) when the transport is closed;
otherwise with Unsupported when the direction is not receive; otherwise
with BadArgument (`TypeError`) when `id` or `producerId` is missing or
`kind` is neither audio nor video; otherwise with Unsupported when
`canReceive` fails against the capability set; and when all checks pass
the operation is enqueued. -/
theorem c7_consume_preflight (st : TransportState) (opts : ConsumerOptions)
    (canRecv : Bool) :
    (st.closed = true →
      consumeSync st opts canRecv = SyncOutcome.threw (TransportError.invalidState "closed")) ∧
    (st.closed = false → st.direction ≠ Direction.recv →
      consumeSync st opts canRecv =
        SyncOutcome.threw (TransportError.unsupported "not a receiving Transport")) ∧
    (st.closed = false → st.direction = Direction.recv →
      (opts.id = none ∨ opts.producerId = none ∨ opts.kind = none) →
      ∃ m, consumeSync st opts canRecv = SyncOutcome.threw (TransportError.typeError m)) ∧
    (st.closed = false → st.direction = Direction.recv →
      opts.id ≠ none → opts.producerId ≠ none → opts.kind ≠ none → canRecv = false →
      consumeSync st opts canRecv =
        SyncOutcome.threw (TransportError.unsupported "cannot consume this Producer")) ∧
    (st.closed = false → st.direction = Direction.recv →
      opts.id ≠ none → opts.producerId ≠ none → opts.kind ≠ none → canRecv = true →
      consumeSync st opts canRecv = SyncOutcome.enqueued) := by
  refine ⟨?_, ?_, ?_, ?_, ?_⟩
  · intro h
    simp [consumeSync, h]
  · intro h hd
    simp [consumeSync, h, hd]
  · intro h hd hmiss
    rcases hmiss with hid | hpid | hk
    · exact ⟨"missing id", by simp [consumeSync, h, hd, hid]⟩
    · by_cases hid : opts.id = none
      · exact ⟨"missing id", by simp [consumeSync, h, hd, hid]⟩
      · exact ⟨"missing producerId", by simp [consumeSync, h, hd, hid, hpid]⟩
    · by_cases hid : opts.id = none
      · exact ⟨"missing id", by simp [consumeSync, h, hd, hid]⟩
      · by_cases hpid : opts.producerId = none
        · exact ⟨"missing producerId", by simp [consumeSync, h, hd, hid, hpid]⟩
        · exact ⟨"invalid kind", by simp [consumeSync, h, hd, hid, hpid, hk]⟩
  · intro h hd hid hpid hk hcr
    simp [consumeSync, h, hd, hid, hpid, hk, hcr]
  · intro h hd hid hpid hk hcr
    simp [consumeSync, h, hd, hid, hpid, hk, hcr]

/-- C7, witness: a closed receive transport makes `consume()` throw the
Closed error, and an open one with all arguments valid enqueues. -/
theorem c7_consume_preflight_witness :
    consumeSync (Transport.close true (initialState Direction.recv none)).state
      { id := some "c1", producerId := some "p1", kind := some MediaKind.video } true
      = SyncOutcome.threw (TransportError.invalidState "closed") ∧
    consumeSync (initialState Direction.recv none)
      { id := some "c1", producerId := some "p1", kind := some MediaKind.video } true
      = SyncOutcome.enqueued :=
  ⟨(c7_consume_preflight (Transport.close true (initialState Direction.recv none)).state
      { id := some "c1", producerId := some "p1", kind := some MediaKind.video } true).1
      (by decide),
   (c7_consume_preflight (initialState Direction.recv none)
      { id := some "c1", producerId := some "p1", kind := some MediaKind.video } true).2.2.2.2
      (by decide) rfl (by decide) (by decide) (by decide) rfl⟩

theorem consumeTask_marker_true (st : TransportState) (tid : String)
    (kind : MediaKind) (mo po : Bool) (h : st.probatorConsumerCreated = true)
    (htid : (tid == "probator") = false) :
    probeAttempts (consumeTask st tid kind mo po).calls = 0 ∧
    (consumeTask st tid kind mo po).state = st := by
  cases mo <;>
    simp [consumeTask, h, htid, probeAttempts, AdapterCall.isProbe, List.filter]

theorem runConsumes_marker_true (l : List (String × MediaKind × Bool × Bool)) :
    ∀ st : TransportState, st.probatorConsumerCreated = true →
      (l.all fun e => e.1 ≠ "probator") = true →
      probeAttempts (runConsumes st l).2 = 0 ∧
      (runConsumes st l).1 = st := by
  induction l with
  | nil => intro st h _; simp [runConsumes, probeAttempts, List.filter]
  | cons hd rest ih =>
      intro st h hall
      obtain ⟨tid, kind, mo, po⟩ := hd
      rw [List.all_cons, Bool.and_eq_true] at hall
      have htid : (tid == "probator") = false := by
        have := hall.1
        simpa [decide_eq_true_eq] using this
      have hstep := consumeTask_marker_true st tid kind mo po h htid
      have hrest := ih (consumeTask st tid kind mo po).state
        (by rw [hstep.2]; exact h) hall.2
      constructor
      · simp only [runConsumes, probeAttempts, List.filter_append, List.length_append]
        have h1 : probeAttempts (consumeTask st tid kind mo po).calls = 0 := hstep.1
        have h2 : probeAttempts (runConsumes (consumeTask st tid kind mo po).state rest).2 = 0 :=
          hrest.1
        simp only [probeAttempts] at h1 h2
        omega
      · simp only [runConsumes]
        rw [hrest.2, hstep.2]

theorem consumeTask_char (st : TransportState) (tid : String) (kind : MediaKind)
    (mo po : Bool) (htid : (tid == "probator") = false) :
    ((consumeTask st tid kind mo po).state.probatorConsumerCreated
      = (st.probatorConsumerCreated || (mo && (kind == MediaKind.video) && po))) ∧
    (probeAttempts (consumeTask st tid kind mo po).calls
      = if !st.probatorConsumerCreated && (kind == MediaKind.video) && mo then 1 else 0) ∧
    (probeSuccesses (consumeTask st tid kind mo po).calls
      = if !st.probatorConsumerCreated && (kind == MediaKind.video) && mo && po
        then 1 else 0) ∧
    ((consumeTask st tid kind mo po).callerOk = mo) := by
  cases hp : st.probatorConsumerCreated <;> cases mo <;> cases po <;> cases kind <;>
    simp [consumeTask, hp, htid, probeAttempts, probeSuccesses,
      AdapterCall.isProbe, AdapterCall.succeeded, List.filter]

theorem consumeTask_state (st : TransportState) (tid : String) (kind : MediaKind)
    (mo po : Bool) :
    (consumeTask st tid kind mo po).state =
      if mo && (!st.probatorConsumerCreated && (kind == MediaKind.video)) && po
      then { st with probatorConsumerCreated := true } else st := by
  cases hp : st.probatorConsumerCreated <;> cases mo <;> cases po <;> cases kind <;>
    simp [consumeTask, hp]

theorem consumeTask_probe_calls (st : TransportState) (tid : String) (kind : MediaKind)
    (mo po : Bool) (htid : (tid == "probator") = false) :
    (consumeTask st tid kind mo po).calls.filter AdapterCall.isProbe =
      if !st.probatorConsumerCreated && (kind == MediaKind.video) && mo
      then [AdapterCall.receive "probator" MediaKind.video po] else [] := by
  cases hp : st.probatorConsumerCreated <;> cases mo <;> cases po <;> cases kind <;>
    simp [consumeTask, hp, htid, AdapterCall.isProbe, List.filter]

theorem runConsumes_probe_successes (l : List (String × MediaKind × Bool × Bool)) :
    ∀ st : TransportState, (l.all fun e => e.1 ≠ "probator") = true →
      probeSuccesses (runConsumes st l).2 =
        (if (runConsumes st l).1.probatorConsumerCreated && !st.probatorConsumerCreated
         then 1 else 0) := by
  induction l with
  | nil => intro st _; simp [runConsumes, probeSuccesses, List.filter]
  | cons hd rest ih =>
      intro st hall
      obtain ⟨tid, kind, mo, po⟩ := hd
      rw [List.all_cons, Bool.and_eq_true] at hall
      have htid : (tid == "probator") = false := by
        simpa [decide_eq_true_eq] using hall.1
      have hchar := consumeTask_char st tid kind mo po htid
      have hstate := consumeTask_state st tid kind mo po
      have hrest := ih (consumeTask st tid kind mo po).state hall.2
      have hsplit : probeSuccesses (runConsumes st ((tid, kind, mo, po) :: rest)).2 =
          probeSuccesses (consumeTask st tid kind mo po).calls +
          probeSuccesses (runConsumes (consumeTask st tid kind mo po).state rest).2 := by
        simp [runConsumes, probeSuccesses, List.filter_append]
      have hfin : (runConsumes st ((tid, kind, mo, po) :: rest)).1 =
          (runConsumes (consumeTask st tid kind mo po).state rest).1 := by
        simp [runConsumes]
      rw [hsplit, hchar.2.2.1, hrest, hfin]
      by_cases hp : st.probatorConsumerCreated = true
      · have hs1 : (consumeTask st tid kind mo po).state = st := by
          rw [hstate]; simp [hp]
        rw [hs1]
        simp [hp]
      · have hp' : st.probatorConsumerCreated = false := by
          cases h : st.probatorConsumerCreated
          · rfl
          · exact absurd h hp
        by_cases hA : mo = true ∧ kind = MediaKind.video ∧ po = true
        · obtain ⟨hmo, hk, hpo⟩ := hA
          have hs1 : (consumeTask st tid kind mo po).state =
              { st with probatorConsumerCreated := true } := by
            rw [hstate]; simp [hp', hmo, hk, hpo]
          rw [hs1]
          have hmono := runConsumes_marker_true rest
            { st with probatorConsumerCreated := true } rfl hall.2
          rw [hmono.2]
          simp [hp', hmo, hk, hpo]
        · have hf : mo = false ∨ kind = MediaKind.audio ∨ po = false := by
            rcases Bool.eq_false_or_eq_true mo with hmo | hmo
            · rcases Bool.eq_false_or_eq_true po with hpo | hpo
              · cases kind
                · exact Or.inr (Or.inl rfl)
                · exact absurd ⟨hmo, rfl, hpo⟩ hA
              · exact Or.inr (Or.inr hpo)
            · exact Or.inl hmo
          have hcond : (mo && (!st.probatorConsumerCreated && (kind == MediaKind.video))
              && po) = false := by
            rcases hf with h | h | h <;> simp [h]
          have hcond2 : (!st.probatorConsumerCreated && (kind == MediaKind.video)
              && mo && po) = false := by
            rcases hf with h | h | h <;> simp [h]
          have hs1 : (consumeTask st tid kind mo po).state = st := by
            rw [hstate, hcond]; rfl
          rw [hs1, hcond2]
          simp

/-- C2: probe-stream (probator) policy of the enqueued `consume` task.
A probe creation is attempted iff the marker is unset, the kind is video
and the caller's own receive reached the adapter successfully; every
probe request uses the reserved synthetic identifier `probator`; the
marker becomes set iff the adapter confirms the probe creation (on
failure it stays unset, so a later video consume retries, and the
caller's own result is unaffected — it equals the main receive outcome);
once the marker is set it is never reset and no later consume ever
attempts another probe; and over any sequence of consume tasks at most
one probe stream is ever successfully created. -/
theorem c2_probator_policy (st : TransportState) (tid : String) (kind : MediaKind)
    (mo po : Bool) (l : List (String × MediaKind × Bool × Bool))
    (htid : (tid == "probator") = false)
    (hall : (l.all fun e => e.1 ≠ "probator") = true) :
    (probeAttempts (consumeTask st tid kind mo po).calls =
      if !st.probatorConsumerCreated && (kind == MediaKind.video) && mo then 1 else 0) ∧
    ((consumeTask st tid kind mo po).calls.filter AdapterCall.isProbe =
      if !st.probatorConsumerCreated && (kind == MediaKind.video) && mo
      then [AdapterCall.receive "probator" MediaKind.video po] else []) ∧
    ((consumeTask st tid kind mo po).state.probatorConsumerCreated
      = (st.probatorConsumerCreated || (mo && (kind == MediaKind.video) && po))) ∧
    ((consumeTask st tid kind mo po).callerOk = mo) ∧
    (st.probatorConsumerCreated = true →
      probeAttempts (runConsumes st l).2 = 0 ∧
      (runConsumes st l).1.probatorConsumerCreated = true) ∧
    probeSuccesses (runConsumes st l).2 ≤ 1 := by
  have hchar := consumeTask_char st tid kind mo po htid
  refine ⟨hchar.2.1, consumeTask_probe_calls st tid kind mo po htid, hchar.1,
    hchar.2.2.2, ?_, ?_⟩
  · intro hp
    have := runConsumes_marker_true l st hp hall
    exact ⟨this.1, by rw [this.2]; exact hp⟩
  · rw [runConsumes_probe_successes l st hall]
    by_cases h : ((runConsumes st l).1.probatorConsumerCreated
        && !st.probatorConsumerCreated) = true
    · simp [h]
    · simp [h]

/-- C2, witness: on a fresh receive transport, a video consume whose probe
creation fails leaves the marker unset and the caller's result a success;
a sequence where the first probe attempt fails and the second succeeds
creates exactly one probe stream with a retry in between. -/
theorem c2_probator_policy_witness :
    probeAttempts (consumeTask (initialState Direction.recv none) "c1"
      MediaKind.video true false).calls = 1 ∧
    (consumeTask (initialState Direction.recv none) "c1"
      MediaKind.video true false).state.probatorConsumerCreated = false ∧
    (consumeTask (initialState Direction.recv none) "c1"
      MediaKind.video true false).callerOk = true ∧
    probeSuccesses (runConsumes (initialState Direction.recv none)
      [("a", MediaKind.video, true, false), ("b", MediaKind.video, true, true),
       ("c", MediaKind.video, true, true)]).2 ≤ 1 := by
  have h := c2_probator_policy (initialState Direction.recv none) "c1"
    MediaKind.video true false
    [("a", MediaKind.video, true, false), ("b", MediaKind.video, true, true),
     ("c", MediaKind.video, true, true)] (by decide) (by decide)
  exact ⟨by rw [h.1]; decide, by rw [h.2.2.1]; decide, h.2.2.2.1, h.2.2.2.2.2⟩

/-! ## Sending specialization (`SendTransport`) -/

/-- A media track as seen by the `produce()` pre-flight: its kind and
whether `readyState === 'ended'`. -/
structure Track : Type where
  kind : MediaKind
  ended : Bool
deriving DecidableEq, Repr

/-- The `encodings` argument of `produce()`: omitted, present but not an
array (possible for an untyped caller, checked inside the enqueued task),
or an array with a given number of entries. -/
inductive EncodingsArg : Type
  | absent
  | notArray
  | arr (n : Nat)
deriving DecidableEq, Repr

/-- The `ProducerOptions` fields relevant to the verified claims. -/
structure ProducerOptions : Type where
  track : Option Track
  encodings : EncodingsArg
  stopTracks : Bool
deriving DecidableEq, Repr

/-- String of a media kind, as used in error messages. -/
def MediaKind.str : MediaKind → String
  | MediaKind.audio => "audio"
  | MediaKind.video => "video"

/-- Synchronous phase of `SendTransport.produce()` (lines 66-80 of the
class): closed check, missing-track check, direction check,
producibility check (`_canProduceByKind[track.kind]`), ended-track check;
only then is the task pushed onto `_awaitQueue`. -/
def produceSync (st : TransportState) (opts : ProducerOptions) : SyncOutcome :=
  if st.closed then SyncOutcome.threw (TransportError.invalidState "closed")
  else
    match opts.track with
    | none => SyncOutcome.threw (TransportError.typeError "missing track")
    | some track =>
        if st.direction ≠ Direction.send then
          SyncOutcome.threw (TransportError.unsupported "not a sending Transport")
        else if !st.canProduce track.kind then
          SyncOutcome.threw
            (TransportError.unsupported ("cannot produce " ++ track.kind.str))
        else if track.ended then
          SyncOutcome.threw (TransportError.invalidState "track ended")
        else SyncOutcome.enqueued

/-- How a `produce()` call can fail. -/
inductive ProduceFailure : Type
  | preflight (e : TransportError)
  | queueStoppedRejection
  | encodingsNotArray
  | sendFailed
  | validateFailed
deriving DecidableEq, Repr

/-- Observable outcome of a whole `produce()` call: how it failed (if it
did), whether the caller-supplied track was stopped, whether the
just-created send state was unwound via `stopSending`, and whether the
adapter `send` was invoked at all. -/
structure ProduceRun : Type where
  failure : Option ProduceFailure
  trackStopped : Bool
  stopSendingCalled : Bool
  adapterSendInvoked : Bool
deriving DecidableEq, Repr

/-- Full `SendTransport.produce()` (lines 54-161 of the class). A failure
in the synchronous pre-flight is thrown before `_awaitQueue.push`, so the
trailing `.catch` that stops the track is never attached. Once enqueued:
a queue stopped by `close()` rejects the task; otherwise the task first
validates that `encodings`, when given, is an array (a `TypeError` from
inside the task), then invokes the adapter `send` (oracle `sendOk`), then
validates the returned parameters (oracle `validateOk`), unwinding via
`stopSending` when validation fails. Every failure produced by the
enqueued command — but no synchronous pre-flight failure — flows through
the `.catch` that stops the track when `stopTracks` is set. -/
def produce (st : TransportState) (opts : ProducerOptions)
    (sendOk validateOk : Bool) : ProduceRun :=
  match produceSync st opts with
  | SyncOutcome.threw e =>
      { failure := some (ProduceFailure.preflight e), trackStopped := false
        stopSendingCalled := false, adapterSendInvoked := false }
  | _ =>
      if st.queueStopped then
        { failure := some ProduceFailure.queueStoppedRejection
          trackStopped := opts.stopTracks
          stopSendingCalled := false, adapterSendInvoked := false }
      else if opts.encodings = EncodingsArg.notArray then
        { failure := some ProduceFailure.encodingsNotArray
          trackStopped := opts.stopTracks
          stopSendingCalled := false, adapterSendInvoked := false }
      else if !sendOk then
        { failure := some ProduceFailure.sendFailed
          trackStopped := opts.stopTracks
          stopSendingCalled := false, adapterSendInvoked := true }
      else if !validateOk then
        { failure := some ProduceFailure.validateFailed
          trackStopped := opts.stopTracks
          stopSendingCalled := true, adapterSendInvoked := true }
      else
        { failure := none, trackStopped := false
          stopSendingCalled := false, adapterSendInvoked := true }

/-- JavaScript truthiness of an optional numeric field: `undefined`,
`null` and `0` are falsy. -/
def truthyNat : Option Nat → Bool
  | none => false
  | some n => n != 0

/-- The `DataProducerOptions` fields of `produceData()` after parameter
defaulting (`ordered = true` when omitted). -/
structure DataProducerOptions : Type where
  ordered : Bool
  maxPacketLifeTime : Option Nat
  maxRetransmits : Option Nat
deriving DecidableEq, Repr

/-- The `ordered` value handed to the adapter by `produceData()`
(lines 187-189 of the class): `if (maxPacketLifeTime || maxRetransmits)
ordered = false` — a JS truthiness test, so a limit of `0` does not
trigger the forcing. -/
def produceDataOrderedArg (opts : DataProducerOptions) : Bool :=
  if truthyNat opts.maxPacketLifeTime || truthyNat opts.maxRetransmits then false
  else opts.ordered

/-- Synchronous phase of `SendTransport.produceData()` (lines 177-185 of
the class): closed check, direction check, then the
`!this._maxSctpMessageSize` truthiness gate. -/
def produceDataSync (st : TransportState) : SyncOutcome :=
  if st.closed then SyncOutcome.threw (TransportError.invalidState "closed")
  else if st.direction ≠ Direction.send then
    SyncOutcome.threw (TransportError.unsupported "not a sending Transport")
  else if !truthyNat st.maxSctpMessageSize then
    SyncOutcome.threw (TransportError.unsupported "SCTP not enabled by remote Transport")
  else SyncOutcome.enqueued

/-- The arguments `(ordered, maxPacketLifeTime, maxRetransmits)` that the
enqueued `produceData()` task passes to `_handler.sendDataChannel`, or
`none` when the pre-flight threw and nothing was enqueued. -/
def produceDataAdapterCall (st : TransportState) (opts : DataProducerOptions) :
    Option (Bool × Option Nat × Option Nat) :=
  match produceDataSync st with
  | SyncOutcome.threw _ => none
  | _ => some (produceDataOrderedArg opts, opts.maxPacketLifeTime, opts.maxRetransmits)

/-- `SendTransport.closeProducer()` (lines 217-221 of the class): no
synchronous check at all — the adapter call is always enqueued, even on a
closed transport. -/
def closeProducerSync (_st : TransportState) : SyncOutcome :=
  SyncOutcome.enqueued

/-- `SendTransport.pauseProducer()` (lines 223-227): no synchronous
check; always enqueues. -/
def pauseProducerSync (_st : TransportState) : SyncOutcome :=
  SyncOutcome.enqueued

/-- `SendTransport.resumeProducer()` (lines 229-233): no synchronous
check; always enqueues. -/
def resumeProducerSync (_st : TransportState) : SyncOutcome :=
  SyncOutcome.enqueued

/-- `SendTransport.replaceTrack()` (lines 235-239): no synchronous check;
always enqueues. -/
def replaceTrackSync (_st : TransportState) : SyncOutcome :=
  SyncOutcome.enqueued

/-- `SendTransport.setMaxSpatialLayer()` (lines 241-245): no synchronous
check; always enqueues. -/
def setMaxSpatialLayerSync (_st : TransportState) : SyncOutcome :=
  SyncOutcome.enqueued

/-- `SendTransport.setRtpEncodingParameters()` (lines 247-254): no
synchronous check; always enqueues. -/
def setRtpEncodingParametersSync (_st : TransportState) : SyncOutcome :=
  SyncOutcome.enqueued

/-- `Transport.restartIce()` (`src/Transport.ts` lines 381-399): closed
check, then missing-`iceParameters` check, then enqueue. -/
def restartIceSync (st : TransportState) (iceParametersGiven : Bool) : SyncOutcome :=
  if st.closed then SyncOutcome.threw (TransportError.invalidState "closed")
  else if !iceParametersGiven then
    SyncOutcome.threw (TransportError.typeError "missing iceParameters")
  else SyncOutcome.enqueued

/-- `Transport.updateIceServers()` (`src/Transport.ts` lines 404-420):
closed check, then `Array.isArray(iceServers)` check, then enqueue. -/
def updateIceServersSync (st : TransportState) (iceServersIsArray : Bool) : SyncOutcome :=
  if st.closed then SyncOutcome.threw (TransportError.invalidState "closed")
  else if !iceServersIsArray then
    SyncOutcome.threw (TransportError.typeError "missing iceServers")
  else SyncOutcome.enqueued

/-- `RecvTransport.closeConsumer()` (lines 204-214 of the class): closed
check, then enqueue. -/
def closeConsumerSync (st : TransportState) : SyncOutcome :=
  if st.closed then SyncOutcome.threw (TransportError.invalidState "closed")
  else SyncOutcome.enqueued

/-- `RecvTransport.pauseConsumer()` (lines 216-227 of the class): closed
check, then enqueue. -/
def pauseConsumerSync (st : TransportState) : SyncOutcome :=
  if st.closed then SyncOutcome.threw (TransportError.invalidState "closed")
  else SyncOutcome.enqueued

/-- `RecvTransport.resumeConsumer()` (lines 229-242 of the class): closed
check, then enqueue. -/
def resumeConsumerSync (st : TransportState) : SyncOutcome :=
  if st.closed then SyncOutcome.threw (TransportError.invalidState "closed")
  else SyncOutcome.enqueued

/-- The caller-supplied `DataConsumerOptions` fields that drive the
pre-flight checks of `consumeData()`. -/
structure DataConsumerOptions : Type where
  id : Option String
  dataProducerId : Option String
deriving DecidableEq, Repr

/-- Synchronous phase of `RecvTransport.consumeData()` (lines 149-185 of
the class): closed check, direction check, `!this._maxSctpMessageSize`
truthiness gate, `id` / `dataProducerId` argument checks, then the
synchronous `ortc.validateSctpStreamParameters` call (an external pure
function, supplied as the oracle `sctpParamsValid`); only when all pass
is the task enqueued. -/
def consumeDataSync (st : TransportState) (opts : DataConsumerOptions)
    (sctpParamsValid : Bool) : SyncOutcome :=
  if st.closed then SyncOutcome.threw (TransportError.invalidState "closed")
  else if st.direction ≠ Direction.recv then
    SyncOutcome.threw (TransportError.unsupported "not a receiving Transport")
  else if !truthyNat st.maxSctpMessageSize then
    SyncOutcome.threw (TransportError.unsupported "SCTP not enabled by remote Transport")
  else if opts.id = none then SyncOutcome.threw (TransportError.typeError "missing id")
  else if opts.dataProducerId = none then
    SyncOutcome.threw (TransportError.typeError "missing dataProducerId")
  else if !sctpParamsValid then
    SyncOutcome.threw (TransportError.typeError "invalid sctpStreamParameters")
  else SyncOutcome.enqueued

/-! ## Theorems for claims C5, C8, C9 -/

/-- C5, counterexample: the claim says no operation invoked on an
already-closed transport enqueues a task; but
`SendTransport.closeProducer()` performs no synchronous check at all and
pushes its task onto the queue even when the transport is closed. -/
theorem c5_close_producer_enqueues_when_closed :
    closeProducerSync (Transport.close true (initialState Direction.send (some 65536))).state
      = SyncOutcome.enqueued ∧
    (Transport.close true (initialState Direction.send (some 65536))).state.closed
      = true := by
  decide

/-- C5, amended: `produce`, `produceData`, `consume`, `consumeData`,
`restartIce`, `updateIceServers` and the receive-side per-consumer
lifecycle operations detect Closed (and their BadArgument / Unsupported
conditions) synchronously, before anything is enqueued; but the send-side
per-producer lifecycle operations (`closeProducer`, `pauseProducer`,
`resumeProducer`, `replaceTrack`, `setMaxSpatialLayer`,
`setRtpEncodingParameters`) perform no synchronous check and enqueue a
task even on a closed transport, and `produce()` checks the array shape
of its `encodings` argument (a BadArgument condition) only inside the
enqueued task. -/
theorem c5_sync_detection_asymmetry (st : TransportState) (popts : ProducerOptions)
    (copts : ConsumerOptions) (ddopts : DataConsumerOptions)
    (canRecv sctpValid iceGiven isArr sendOk validateOk : Bool) :
    (st.closed = true →
      produceSync st popts = SyncOutcome.threw (TransportError.invalidState "closed") ∧
      produceDataSync st = SyncOutcome.threw (TransportError.invalidState "closed") ∧
      consumeSync st copts canRecv
        = SyncOutcome.threw (TransportError.invalidState "closed") ∧
      consumeDataSync st ddopts sctpValid
        = SyncOutcome.threw (TransportError.invalidState "closed") ∧
      restartIceSync st iceGiven
        = SyncOutcome.threw (TransportError.invalidState "closed") ∧
      updateIceServersSync st isArr
        = SyncOutcome.threw (TransportError.invalidState "closed") ∧
      closeConsumerSync st = SyncOutcome.threw (TransportError.invalidState "closed") ∧
      pauseConsumerSync st = SyncOutcome.threw (TransportError.invalidState "closed") ∧
      resumeConsumerSync st = SyncOutcome.threw (TransportError.invalidState "closed")) ∧
    closeProducerSync st = SyncOutcome.enqueued ∧
    pauseProducerSync st = SyncOutcome.enqueued ∧
    resumeProducerSync st = SyncOutcome.enqueued ∧
    replaceTrackSync st = SyncOutcome.enqueued ∧
    setMaxSpatialLayerSync st = SyncOutcome.enqueued ∧
    setRtpEncodingParametersSync st = SyncOutcome.enqueued ∧
    (produceSync st popts = SyncOutcome.enqueued →
      popts.encodings = EncodingsArg.notArray → st.queueStopped = false →
      (produce st popts sendOk validateOk).failure
        = some ProduceFailure.encodingsNotArray) := by
  refine ⟨?_, rfl, rfl, rfl, rfl, rfl, rfl, ?_⟩
  · intro h
    exact ⟨by simp [produceSync, h], by simp [produceDataSync, h],
      by simp [consumeSync, h], by simp [consumeDataSync, h],
      by simp [restartIceSync, h], by simp [updateIceServersSync, h],
      by simp [closeConsumerSync, h], by simp [pauseConsumerSync, h],
      by simp [resumeConsumerSync, h]⟩
  · intro hs hn hq
    simp [produce, hs, hn, hq]

/-- C5, witness for the amended theorem: on a freshly closed send
transport, `produce()` pre-flight throws Closed synchronously while
`closeProducer()` still enqueues; and on an open transport a non-array
`encodings` value fails only inside the enqueued task. -/
theorem c5_sync_detection_asymmetry_witness :
    produceSync (Transport.close true (initialState Direction.send (some 65536))).state
      { track := some { kind := MediaKind.audio, ended := false }
        encodings := EncodingsArg.absent, stopTracks := true }
      = SyncOutcome.threw (TransportError.invalidState "closed") ∧
    closeProducerSync (Transport.close true (initialState Direction.send (some 65536))).state
      = SyncOutcome.enqueued ∧
    (produce (initialState Direction.send (some 65536))
      { track := some { kind := MediaKind.audio, ended := false }
        encodings := EncodingsArg.notArray, stopTracks := true } true true).failure
      = some ProduceFailure.encodingsNotArray := by
  refine ⟨?_, ?_, ?_⟩
  · exact ((c5_sync_detection_asymmetry
      (Transport.close true (initialState Direction.send (some 65536))).state
      { track := some { kind := MediaKind.audio, ended := false }
        encodings := EncodingsArg.absent, stopTracks := true }
      { id := none, producerId := none, kind := none }
      { id := none, dataProducerId := none }
      true true true true true true).1 (by decide)).1
  · exact (c5_sync_detection_asymmetry
      (Transport.close true (initialState Direction.send (some 65536))).state
      { track := some { kind := MediaKind.audio, ended := false }
        encodings := EncodingsArg.absent, stopTracks := true }
      { id := none, producerId := none, kind := none }
      { id := none, dataProducerId := none }
      true true true true true true).2.1
  · exact (c5_sync_detection_asymmetry
      (initialState Direction.send (some 65536))
      { track := some { kind := MediaKind.audio, ended := false }
        encodings := EncodingsArg.notArray, stopTracks := true }
      { id := none, producerId := none, kind := none }
      { id := none, dataProducerId := none }
      true true true true true true).2.2.2.2.2.2.2 (by decide) rfl rfl

/-- C8, counterexample: the claim says a failing `produce()` with
`stopTracks = true` always stops the caller-supplied track, including
when the failure arises in the synchronous pre-flight; but a pre-flight
failure (here: transport already closed) is thrown before
`_awaitQueue.push`, so the `.catch` that stops the track never runs and
the track is not stopped. -/
theorem c8_preflight_failure_keeps_track :
    produce (Transport.close true (initialState Direction.send none)).state
      { track := some { kind := MediaKind.audio, ended := false }
        encodings := EncodingsArg.absent, stopTracks := true } true true
      = { failure :=
            some (ProduceFailure.preflight (TransportError.invalidState "closed"))
          trackStopped := false, stopSendingCalled := false
          adapterSendInvoked := false } := by
  decide

/-- C8, amended: when `produce()` passes its synchronous pre-flight and
the enqueued command then fails for any reason — rejection by a queue
stopped by `close()`, the in-task `encodings` shape check, a failing
adapter `send`, or failing validation of the adapter-returned parameters
— and `stopTracks` is true, the caller-supplied track is stopped before
the failure is surfaced; a failure thrown by the synchronous pre-flight
itself never stops the track, and a successful call never stops it. -/
theorem c8_track_stopped_on_enqueued_failures (st : TransportState)
    (opts : ProducerOptions) (sendOk validateOk : Bool) :
    (produceSync st opts = SyncOutcome.enqueued → opts.stopTracks = true →
      (produce st opts sendOk validateOk).failure ≠ none →
      (produce st opts sendOk validateOk).trackStopped = true) ∧
    (∀ e, produceSync st opts = SyncOutcome.threw e →
      (produce st opts sendOk validateOk).trackStopped = false) ∧
    ((produce st opts sendOk validateOk).failure = none →
      (produce st opts sendOk validateOk).trackStopped = false) := by
  cases hsy : produceSync st opts <;>
    cases hq : st.queueStopped <;>
    by_cases hn : opts.encodings = EncodingsArg.notArray <;>
    cases hsend : sendOk <;>
    cases hval : validateOk <;>
    simp [produce, hsy, hq, hn]

/-- C8, witness for the amended theorem: an open send transport whose
adapter `send` fails stops the track; the same options on a closed
transport fail without stopping the track. -/
theorem c8_track_stopped_witness :
    (produce (initialState Direction.send none)
      { track := some { kind := MediaKind.audio, ended := false }
        encodings := EncodingsArg.absent, stopTracks := true } false true).trackStopped
      = true ∧
    (produce (Transport.close true (initialState Direction.send none)).state
      { track := some { kind := MediaKind.audio, ended := false }
        encodings := EncodingsArg.absent, stopTracks := true } false true).trackStopped
      = false :=
  ⟨(c8_track_stopped_on_enqueued_failures (initialState Direction.send none)
      { track := some { kind := MediaKind.audio, ended := false }
        encodings := EncodingsArg.absent, stopTracks := true } false true).1
      (by decide) rfl (by decide),
   (c8_track_stopped_on_enqueued_failures
      (Transport.close true (initialState Direction.send none)).state
      { track := some { kind := MediaKind.audio, ended := false }
        encodings := EncodingsArg.absent, stopTracks := true } false true).2.1
      (TransportError.invalidState "closed") (by decide)⟩

/-- C9, counterexample: the claim says any provided `maxPacketLifeTime`,
including the value `0`, forces the `ordered` flag passed to the adapter
to false; but the code uses a JS truthiness test
(`if (maxPacketLifeTime || maxRetransmits)`), so with
`maxPacketLifeTime = 0` the adapter still receives `ordered = true`. -/
theorem c9_zero_limit_keeps_ordered :
    produceDataAdapterCall (initialState Direction.send (some 65536))
      { ordered := true, maxPacketLifeTime := some 0, maxRetransmits := none }
      = some (true, some 0, none) := by
  decide

/-- C9, amended: `produceData()` forces the `ordered` flag passed to the
adapter to false exactly when a `maxPacketLifeTime` or `maxRetransmits`
limit is present with a nonzero (truthy) value; when both limits are
absent or zero the caller's `ordered` flag is passed through unchanged;
and whenever the pre-flight passes, the adapter receives exactly this
computed flag together with the two limits. -/
theorem c9_ordered_forcing (st : TransportState) (opts : DataProducerOptions) :
    ((truthyNat opts.maxPacketLifeTime || truthyNat opts.maxRetransmits) = true →
      produceDataOrderedArg opts = false) ∧
    ((truthyNat opts.maxPacketLifeTime || truthyNat opts.maxRetransmits) = false →
      produceDataOrderedArg opts = opts.ordered) ∧
    (produceDataSync st = SyncOutcome.enqueued →
      produceDataAdapterCall st opts =
        some (produceDataOrderedArg opts, opts.maxPacketLifeTime, opts.maxRetransmits)) := by
  refine ⟨?_, ?_, ?_⟩
  · intro h
    simp [produceDataOrderedArg, h]
  · intro h
    simp [produceDataOrderedArg, h]
  · intro h
    simp [produceDataAdapterCall, h]

/-- C9, witness for the amended theorem: a nonzero lifetime limit forces
`ordered = false`, and on an SCTP-enabled open send transport the adapter
call carries that flag. -/
theorem c9_ordered_forcing_witness :
    produceDataOrderedArg
      { ordered := true, maxPacketLifeTime := some 5000, maxRetransmits := none }
      = false ∧
    produceDataAdapterCall (initialState Direction.send (some 65536))
      { ordered := true, maxPacketLifeTime := some 5000, maxRetransmits := none }
      = some (produceDataOrderedArg
          { ordered := true, maxPacketLifeTime := some 5000, maxRetransmits := none },
          some 5000, none) :=
  ⟨(c9_ordered_forcing (initialState Direction.send (some 65536))
      { ordered := true, maxPacketLifeTime := some 5000, maxRetransmits := none }).1
      (by decide),
   (c9_ordered_forcing (initialState Direction.send (some 65536))
      { ordered := true, maxPacketLifeTime := some 5000, maxRetransmits := none }).2.2
      (by decide)⟩

/-! ## Object identity of caller-supplied parameters (claim C10)

`consume()` rebinds `rtpParameters` to `utils.clone(rtpParameters)` as its
first statement, and `consumeData()` does the same with
`sctpStreamParameters`; everything afterwards operates on the clone. To
state this frame property, parameter objects live in a small heap with
explicit references. -/

/-- A heap of parameter objects; references are indices into `cells`. -/
structure Heap (α : Type) : Type where
  cells : List α
deriving DecidableEq, Repr

/-- Read a reference (with default for dangling references). -/
def Heap.read {α : Type} (h : Heap α) (r : Nat) (d : α) : α :=
  h.cells.getD r d

/-- In-place mutation of the object behind a reference. -/
def Heap.write {α : Type} (h : Heap α) (r : Nat) (v : α) : Heap α :=
  ⟨h.cells.set r v⟩

/-- Allocate a fresh object; the returned reference is new. -/
def Heap.alloc {α : Type} (h : Heap α) (v : α) : Heap α × Nat :=
  (⟨h.cells ++ [v]⟩, h.cells.length)

/-- Modelled from the spec: `utils.clone` (`src/utils.ts` is not among the
sources) — a deep clone, producing an independent copy of the object with
an equal value under a fresh reference. -/
def clone {α : Type} (h : Heap α) (r : Nat) (d : α) : Heap α × Nat :=
  h.alloc (h.read r d)

/-- Object flow of `RecvTransport.consume()` (line 56 of the class) with
respect to the caller-supplied `rtpParameters` object: the parameter is
rebound to a deep clone before any check or adapter call, and the clone
reference is what `canReceive`, `generateProbatorRtpParameters` and
`_handler.receive` later see. Returns the heap afterwards and the
reference handed to the rest of the method. -/
def consumeParamsFlow {α : Type} (h : Heap α) (callerRef : Nat) (d : α) :
    Heap α × Nat :=
  clone h callerRef d

/-- Object flow of `RecvTransport.consumeData()` (line 161 of the class)
with respect to the caller-supplied `sctpStreamParameters` object: the
parameter is rebound to a deep clone before any check, then
`ortc.validateSctpStreamParameters` fills missing fields of the clone in
place (the normalization is the oracle `normalize`), and
`_handler.receiveDataChannel` sees the clone. Returns the heap afterwards
and the reference handed to the adapter. -/
def consumeDataParamsFlow {α : Type} (h : Heap α) (callerRef : Nat) (d : α)
    (normalize : α → α) : Heap α × Nat :=
  let c := clone h callerRef d
  (Heap.write c.1 c.2 (normalize (Heap.read c.1 c.2 d)), c.2)

theorem getD_set_ne {α : Type} (l : List α) (i j : Nat) (v d : α) (hij : i ≠ j) :
    (l.set i v).getD j d = l.getD j d := by
  induction l generalizing i j with
  | nil => simp
  | cons a t ih =>
      cases i with
      | zero =>
          cases j with
          | zero => exact absurd rfl hij
          | succ j => simp [List.set, List.getD]
      | succ i =>
          cases j with
          | zero => simp [List.set, List.getD]
          | succ j =>
              have : i ≠ j := fun he => hij (by rw [he])
              simpa [List.set, List.getD] using ih i j this

theorem getD_append_left {α : Type} (l l' : List α) (i : Nat) (d : α)
    (hi : i < l.length) : (l ++ l').getD i d = l.getD i d := by
  induction l generalizing i with
  | nil => exact absurd hi (by simp)
  | cons a t ih =>
      cases i with
      | zero => simp [List.getD]
      | succ i =>
          have : i < t.length := by simpa using hi
          simpa [List.getD] using ih i this

/-- C10: neither `consume()` nor `consumeData()` ever mutates the
caller-supplied parameters object. The reference each method works with
(and hands to validation and the adapter) is a fresh one, distinct from
the caller's; after the whole flow — including `consumeData()`'s in-place
normalization of its clone — the caller's object holds exactly its
original value; and the clone starts out as an equal copy of the caller's
object. -/
theorem c10_caller_params_unchanged {α : Type} (h : Heap α) (callerRef : Nat)
    (d : α) (normalize : α → α) (hr : callerRef < h.cells.length) :
    (consumeParamsFlow h callerRef d).2 ≠ callerRef ∧
    Heap.read (consumeParamsFlow h callerRef d).1 callerRef d
      = Heap.read h callerRef d ∧
    Heap.read (consumeParamsFlow h callerRef d).1 (consumeParamsFlow h callerRef d).2 d
      = Heap.read h callerRef d ∧
    (consumeDataParamsFlow h callerRef d normalize).2 ≠ callerRef ∧
    Heap.read (consumeDataParamsFlow h callerRef d normalize).1 callerRef d
      = Heap.read h callerRef d := by
  have hne : h.cells.length ≠ callerRef := fun he => absurd hr (by rw [he]; omega)
  refine ⟨hne, ?_, ?_, hne, ?_⟩
  · simpa [consumeParamsFlow, clone, Heap.alloc, Heap.read] using
      getD_append_left h.cells [Heap.read h callerRef d] callerRef d hr
  · simp [consumeParamsFlow, clone, Heap.alloc, Heap.read]
  · have h1 : Heap.read (clone h callerRef d).1 callerRef d = Heap.read h callerRef d := by
      simpa [clone, Heap.alloc, Heap.read] using
        getD_append_left h.cells [Heap.read h callerRef d] callerRef d hr
    calc Heap.read (consumeDataParamsFlow h callerRef d normalize).1 callerRef d
        = Heap.read (clone h callerRef d).1 callerRef d := by
          simpa [consumeDataParamsFlow, Heap.write, Heap.read] using
            getD_set_ne (clone h callerRef d).1.cells (clone h callerRef d).2 callerRef
              (normalize (Heap.read (clone h callerRef d).1 (clone h callerRef d).2 d)) d hne
      _ = Heap.read h callerRef d := h1

/-- C10, witness: a one-object heap; the caller cell keeps its value 42
through both flows even though `consumeData()` normalizes its clone. -/
theorem c10_caller_params_unchanged_witness :
    Heap.read (consumeDataParamsFlow (Heap.mk [42]) 0 0 (fun n => n + 1)).1 0 0 = 42 ∧
    (consumeDataParamsFlow (Heap.mk [42]) 0 0 (fun n => n + 1)).2 ≠ 0 :=
  ⟨(c10_caller_params_unchanged (Heap.mk [42]) 0 0 (fun n => n + 1)
      (by decide)).2.2.2.2,
   (c10_caller_params_unchanged (Heap.mk [42]) 0 0 (fun n => n + 1)
      (by decide)).2.2.2.1⟩
